import Mathlib

/-!
Shallow embedding of `api_server_with_key.py`, an OpenAI-compatible proxy in
front of a local Ollama backend, built on FastAPI and pydantic.

The embedding models one request/response cycle of `POST /chat/completions`:
FastAPI first resolves the `Depends` chain (the `HTTPBearer` security scheme,
then `check_api_key`), then validates the JSON body against
`ChatCompletionRequest`, and only then runs the handler body, which issues
exactly one outbound `requests.post` to the Ollama chat endpoint.

Two environment facts of the source that the embedding makes explicit:
* the pydantic defaults `id = f"chatcmpl-{uuid}"` and `created = int(time.time())`
  on `ChatCompletionResponse` are class-level defaults, evaluated once when the
  class body runs at import time; they are therefore process constants, passed
  here as the `startupId` / `startupCreated` parameters;
* `fastapi.security.HTTPBearer` with its default `auto_error=True` rejects a
  missing or non-bearer `Authorization` header itself, with HTTP 403 and no
  `WWW-Authenticate` header, before `check_api_key` ever runs.

The outbound interaction is modelled by a `BackendOutcome` value describing
what the network and the backend did; the second component of the pipeline
result collects the outbound payloads actually issued (empty when the handler
body was never reached).
-/

namespace Proxy

/-- JSON values, as decoded by `response.json()` / sent in request bodies. -/
inductive Json where
  | null : Json
  | bool : Bool → Json
  | num : Int → Json
  | str : String → Json
  | arr : List Json → Json
  | obj : List (String × Json) → Json

/-- Key lookup in a decoded JSON object (Python `dict` access; keys unique). -/
def jlookup : List (String × Json) → String → Option Json
  | [], _ => none
  | (k, v) :: rest, key => if k = key then some v else jlookup rest key

/-- Python type name of a JSON value, for `AttributeError` messages. -/
def Json.typeName : Json → String
  | .null => "NoneType"
  | .bool _ => "bool"
  | .num _ => "int"
  | .str _ => "str"
  | .arr _ => "list"
  | .obj _ => "dict"

/-- `d.get(key, default)` on a decoded JSON value: only `dict`s have `.get`;
on any other value Python raises `AttributeError`. -/
def pyDictGet (j : Json) (key : String) (default : Json) : Except String Json :=
  match j with
  | .obj fields => .ok ((jlookup fields key).getD default)
  | _ => .error ("AttributeError: " ++ j.typeName ++ " object has no attribute get")

/-- pydantic validation of a `str`-annotated field (strict: only strings). -/
def pyStrField (j : Json) : Except String String :=
  match j with
  | .str s => .ok s
  | _ => .error "pydantic ValidationError: input should be a valid string"

/-- The `role` literal of an inbound `ChatMessage`:
`Literal["user", "assistant", "system"]`. -/
inductive Role where
  | user : Role
  | assistant : Role
  | system : Role
deriving DecidableEq, Repr

def Role.toStr : Role → String
  | .user => "user"
  | .assistant => "assistant"
  | .system => "system"

def Role.ofStr (s : String) : Option Role :=
  if s = "user" then some .user
  else if s = "assistant" then some .assistant
  else if s = "system" then some .system
  else none

/-- `class ChatMessage(BaseModel)`: a validated inbound message. -/
structure ChatMessage where
  role : Role
  content : String
deriving DecidableEq, Repr

/-- `class ChatCompletionRequest(BaseModel)`: the validated request body. -/
structure ChatCompletionRequest where
  model : String
  messages : List ChatMessage
deriving DecidableEq, Repr

/-- pydantic validation of one element of `messages` against `ChatMessage`. -/
def validateChatMessage : Json → Option ChatMessage
  | .obj fields =>
    match jlookup fields "role", jlookup fields "content" with
    | some (.str r), some (.str c) =>
      match Role.ofStr r with
      | some role => some ⟨role, c⟩
      | none => none
    | _, _ => none
  | _ => none

/-- pydantic validation of `List[ChatMessage]`: every element must validate. -/
def validateMessages : List Json → Option (List ChatMessage)
  | [] => some []
  | j :: rest =>
    match validateChatMessage j, validateMessages rest with
    | some m, some ms => some (m :: ms)
    | _, _ => none

/-- pydantic validation of the request body against `ChatCompletionRequest`;
`none` means FastAPI answers 422 (`RequestValidationError`). -/
def validateChatCompletionRequest (body : Json) : Option ChatCompletionRequest :=
  match body with
  | .obj fields =>
    match jlookup fields "model", jlookup fields "messages" with
    | some (.str m), some (.arr msgs) =>
      match validateMessages msgs with
      | some ms => some ⟨m, ms⟩
      | none => none
    | _, _ => none
  | _ => none

/-- `fastapi.security.HTTPAuthorizationCredentials`. -/
structure HTTPAuthorizationCredentials where
  scheme : String
  credentials : String
deriving DecidableEq, Repr

/-- The data of a raised `HTTPException`: status, detail, extra headers. -/
structure HTTPExceptionData where
  status : Nat
  detail : String
  headers : List (String × String)
deriving DecidableEq, Repr

/-- Split a character list at its first space; the remainder is kept
verbatim (Python `str.partition` keeps everything after the separator). -/
def splitAtFirstSpace : List Char → List Char × List Char
  | [] => ([], [])
  | c :: rest =>
    if c = ' ' then ([], rest)
    else
      let p := splitAtFirstSpace rest
      (c :: p.1, p.2)

/-- Python `authorization.partition(" ")`, keeping the pieces either side of
the first space (FastAPI `get_authorization_scheme_param`). -/
def partitionSpace (s : String) : String × String :=
  let p := splitAtFirstSpace s.data
  (String.mk p.1, String.mk p.2)

/-- Python `str.lower()`. -/
def lowerString (s : String) : String := String.mk (s.data.map Char.toLower)

/-- `HTTPBearer.__call__` with the default `auto_error=True`: missing header,
empty scheme or credentials, or a scheme other than bearer (case-insensitive)
raise HTTP 403 before the dependent `check_api_key` ever runs. -/
def httpBearerCall (header : Option String) :
    Except HTTPExceptionData HTTPAuthorizationCredentials :=
  let authorization := header.getD ""
  let p := partitionSpace authorization
  if authorization = "" ∨ p.1 = "" ∨ p.2 = "" then
    .error ⟨403, "Not authenticated", []⟩
  else if lowerString p.1 ≠ "bearer" then
    .error ⟨403, "Invalid authentication credentials", []⟩
  else
    .ok ⟨p.1, p.2⟩

/-- `credentials.credentials != SERVER_API_KEY` in Python: when the key
environment variable is unset, `SERVER_API_KEY` is `None` and a `str` never
equals `None`, so no presented token can match. -/
def keyMatches (presented : String) (serverKey : Option String) : Bool :=
  match serverKey with
  | some k => presented == k
  | none => false

/-- `check_api_key`: rejects with 401 and a `WWW-Authenticate: Bearer`
challenge unless the scheme is exactly `"Bearer"` and the token matches. -/
def check_api_key (serverKey : Option String)
    (credentials : HTTPAuthorizationCredentials) : Except HTTPExceptionData String :=
  if credentials.scheme ≠ "Bearer" ∨ keyMatches credentials.credentials serverKey = false then
    .error ⟨401, "Invalid or missing API key", [("WWW-Authenticate", "Bearer")]⟩
  else
    .ok credentials.credentials

/-- One entry of the outbound `messages` list, i.e. `msg.dict()`. -/
structure MessageDict where
  role : String
  content : String
deriving DecidableEq, Repr

def ChatMessage.dict (m : ChatMessage) : MessageDict :=
  ⟨m.role.toStr, m.content⟩

/-- The `ollama_payload` JSON body posted to the backend. -/
structure OllamaPayload where
  model : String
  messages : List MessageDict
  stream : Bool
deriving DecidableEq, Repr

def OLLAMA_CHAT_ENDPOINT : String := "http://127.0.0.1:11434/api/chat"

/-- What the network/backend did for the single outbound `requests.post`:
a connection failure, a timeout, or an HTTP response with a status code, a
reason phrase and a body (`Except.error` = body not decodable as JSON,
carrying the decode error message). -/
inductive BackendOutcome where
  | connectionError : String → BackendOutcome
  | timeout : String → BackendOutcome
  | response : Nat → String → Except String Json → BackendOutcome

/-- The `requests` exceptions that the handler's `except` clause catches
(all are subclasses of `requests.exceptions.RequestException`). -/
inductive ReqError where
  | connectionError : String → ReqError
  | timeoutError : String → ReqError
  | httpError : Nat → String → ReqError
  | jsonDecodeError : String → ReqError
deriving DecidableEq, Repr

/-- `str(e)` for each caught exception; for `HTTPError` this is the message
`raise_for_status` builds from the status code, reason and URL. -/
def ReqError.text : ReqError → String
  | .connectionError m => m
  | .timeoutError m => m
  | .httpError status reason =>
    toString status ++ (if status < 500 then " Client Error: " else " Server Error: ")
      ++ reason ++ " for url: " ++ OLLAMA_CHAT_ENDPOINT
  | .jsonDecodeError m => m

/-- `requests.post(...)` followed by `response.raise_for_status()` and
`response.json()`: connection failures and timeouts raise; 4xx/5xx statuses
raise `HTTPError`; an undecodable body raises `JSONDecodeError` (a
`RequestException` subclass in requests ≥ 2.27); otherwise the decoded JSON
value is returned. -/
def requestsPost (backend : BackendOutcome) : Except ReqError Json :=
  match backend with
  | .connectionError m => .error (.connectionError m)
  | .timeout m => .error (.timeoutError m)
  | .response status reason body =>
    if 400 ≤ status ∧ status < 600 then .error (.httpError status reason)
    else
      match body with
      | .error m => .error (.jsonDecodeError m)
      | .ok j => .ok j

/-- Response-side message (`ResponseChatMessage`); `role` is the literal
`"assistant"`. -/
structure ResponseChatMessage where
  role : String
  content : String
deriving DecidableEq, Repr

/-- `ChatCompletionChoice`. -/
structure ChatCompletionChoice where
  index : Int
  message : ResponseChatMessage
  finish_reason : String
deriving DecidableEq, Repr

/-- `ChatCompletionResponse`. `id` and `created` are filled from the
class-level defaults computed once at import time (see module docstring). -/
structure ChatCompletionResponse where
  id : String
  object : String
  created : Int
  model : String
  choices : List ChatCompletionChoice
deriving DecidableEq, Repr

/-- How one request/response cycle ends, seen from the client. -/
inductive Outcome where
  | ok : ChatCompletionResponse → Outcome
  | httpError : HTTPExceptionData → Outcome
  | validationError : Outcome
  | unhandled : String → Outcome
deriving DecidableEq, Repr

/-- The HTTP status the client observes for each outcome (FastAPI maps a
`RequestValidationError` to 422 and an uncaught exception to 500). -/
def Outcome.statusCode : Outcome → Nat
  | .ok _ => 200
  | .httpError e => e.status
  | .validationError => 422
  | .unhandled _ => 500

/-- The handler body of `create_chat_completion`, run after auth and body
validation succeeded: build `ollama_payload`, post it, map any
`RequestException` to a 503 with the cause in the detail text, otherwise
extract `message.content` (default `""`) and `model` (default: the requested
model) and build the response from the process-constant id and timestamp.
Returns the outcome together with the outbound payloads issued. -/
def create_chat_completion (startupId : String) (startupCreated : Int)
    (request : ChatCompletionRequest) (backend : BackendOutcome) :
    Outcome × List OllamaPayload :=
  let ollama_payload : OllamaPayload :=
    { model := request.model
      messages := request.messages.map ChatMessage.dict
      stream := false }
  let result : Outcome :=
    match requestsPost backend with
    | .error e => .httpError ⟨503, "Error connecting to Ollama: " ++ e.text, []⟩
    | .ok ollama_data =>
      match pyDictGet ollama_data "message" (.obj []) with
      | .error m => .unhandled m
      | .ok msgVal =>
        match pyDictGet msgVal "content" (.str "") with
        | .error m => .unhandled m
        | .ok contentJson =>
          match pyDictGet ollama_data "model" (.str request.model) with
          | .error m => .unhandled m
          | .ok modelJson =>
            match pyStrField contentJson, pyStrField modelJson with
            | .ok content, .ok actualModel =>
              .ok
                { id := startupId
                  object := "chat.completion"
                  created := startupCreated
                  model := actualModel
                  choices := [{ index := 0
                                message := { role := "assistant", content := content }
                                finish_reason := "stop" }] }
            | .error m, _ => .unhandled m
            | .ok _, .error m => .unhandled m
  (result, [ollama_payload])

/-- One full request/response cycle of `POST /chat/completions`:
FastAPI resolves the `HTTPBearer` security dependency, then `check_api_key`,
then validates the body, then runs the handler. A failure at any stage
short-circuits, and the outbound call list stays empty. -/
def pipeline (serverKey : Option String) (startupId : String) (startupCreated : Int)
    (authHeader : Option String) (body : Json) (backend : BackendOutcome) :
    Outcome × List OllamaPayload :=
  match httpBearerCall authHeader with
  | .error e => (.httpError e, [])
  | .ok credentials =>
    match check_api_key serverKey credentials with
    | .error e => (.httpError e, [])
    | .ok _ =>
      match validateChatCompletionRequest body with
      | none => (.validationError, [])
      | some request => create_chat_completion startupId startupCreated request backend

/-- The 200-response schema of the endpoint: object `"chat.completion"`,
exactly one choice, index 0, finish reason `"stop"`, assistant role. -/
def schemaValid (r : ChatCompletionResponse) : Bool :=
  r.object == "chat.completion" &&
  match r.choices with
  | [c] => c.index == 0 && c.finish_reason == "stop" && c.message.role == "assistant"
  | _ => false

/-! Sample concrete values, used to evaluate the embedded code at
specific inputs. -/

/-- A well-formed request body: one user message. -/
def goodBody : Json :=
  Json.obj [("model", Json.str "llama3"),
            ("messages", Json.arr [Json.obj [("role", Json.str "user"),
                                             ("content", Json.str "hi")]])]

/-- A request body whose single message carries the unsupported role
`"tool"`. -/
def badRoleBody : Json :=
  Json.obj [("model", Json.str "llama3"),
            ("messages", Json.arr [Json.obj [("role", Json.str "tool"),
                                             ("content", Json.str "hi")]])]

/-- A well-formed native backend reply. -/
def goodBackendBody : Json :=
  Json.obj [("model", Json.str "llama3"),
            ("message", Json.obj [("content", Json.str "hello!")])]

/-- A healthy backend: HTTP 200 with a well-formed JSON body. -/
def goodBackend : BackendOutcome :=
  BackendOutcome.response 200 "OK" (Except.ok goodBackendBody)

/-! Helper lemmas about the embedded functions. -/

theorem getD_map_str (o : Option String) (d : String) :
    (Option.map Json.str o).getD (Json.str d) = Json.str (o.getD d) := by
  cases o <;> rfl

/-- `check_api_key` rejects whenever the scheme is not exactly `"Bearer"` or
the token does not match the configured key. -/
theorem check_api_key_fail (serverKey : Option String)
    (c : HTTPAuthorizationCredentials)
    (h : c.scheme ≠ "Bearer" ∨ keyMatches c.credentials serverKey = false) :
    check_api_key serverKey c =
      Except.error ⟨401, "Invalid or missing API key", [("WWW-Authenticate", "Bearer")]⟩ := by
  unfold check_api_key
  rw [if_pos h]

/-- If any element of the list fails message validation, the whole
`List[ChatMessage]` validation fails. -/
theorem validateMessages_none (msgs : List Json) (j : Json) (hj : j ∈ msgs)
    (h : validateChatMessage j = none) : validateMessages msgs = none := by
  induction msgs with
  | nil => cases hj
  | cons x xs ih =>
    rcases List.mem_cons.mp hj with h1 | h1
    · subst h1
      unfold validateMessages
      cases hxs : validateMessages xs <;> simp [h]
    · unfold validateMessages
      cases hx : validateChatMessage x <;> simp [hx, ih h1]

/-- A message object whose `role` value is a string outside
`{user, assistant, system}` never validates. -/
theorem validateChatMessage_badRole (mf : List (String × Json)) (r : String)
    (hr : jlookup mf "role" = some (Json.str r)) (hbad : Role.ofStr r = none) :
    validateChatMessage (Json.obj mf) = none := by
  simp only [validateChatMessage]
  rw [hr]
  cases hc : jlookup mf "content" with
  | none => rfl
  | some v =>
    cases v <;> simp [hbad]

/-- Once the bearer dependency, the key check and body validation succeed,
the pipeline is exactly the handler body. -/
theorem pipeline_eq_handler (serverKey : Option String) (sid : String) (sc : Int)
    (hdr : Option String) (body : Json) (backend : BackendOutcome)
    (creds : HTTPAuthorizationCredentials) (tok : String)
    (req : ChatCompletionRequest)
    (h1 : httpBearerCall hdr = Except.ok creds)
    (h2 : check_api_key serverKey creds = Except.ok tok)
    (h3 : validateChatCompletionRequest body = some req) :
    pipeline serverKey sid sc hdr body backend =
      create_chat_completion sid sc req backend := by
  simp only [pipeline, h1, h2, h3]

/-- Evaluation of the handler body on a backend success whose decoded body is
an object with an absent-or-object `message` field, an absent-or-string
`message.content` and an absent-or-string `model`. -/
theorem handler_success (sid : String) (sc : Int) (req : ChatCompletionRequest)
    (backend : BackendOutcome) (fields mfields : List (String × Json))
    (contentOpt modelOpt : Option String)
    (h4 : requestsPost backend = Except.ok (Json.obj fields))
    (hm : (jlookup fields "message").getD (Json.obj []) = Json.obj mfields)
    (hc : jlookup mfields "content" = Option.map Json.str contentOpt)
    (hmo : jlookup fields "model" = Option.map Json.str modelOpt) :
    create_chat_completion sid sc req backend =
      (Outcome.ok ⟨sid, "chat.completion", sc, modelOpt.getD req.model,
          [⟨0, ⟨"assistant", contentOpt.getD ""⟩, "stop"⟩]⟩,
       [⟨req.model, req.messages.map ChatMessage.dict, false⟩]) := by
  unfold create_chat_completion
  rw [h4]
  simp only [pyDictGet, hm, hc, hmo, getD_map_str, pyStrField]

/-- Every rejection of the `HTTPBearer` security dependency carries
status 403. -/
theorem httpBearerCall_error_status (hdr : Option String) (e : HTTPExceptionData)
    (he : httpBearerCall hdr = Except.error e) : e.status = 403 := by
  simp only [httpBearerCall] at he
  split at he
  · cases he
    rfl
  · split at he
    · cases he
      rfl
    · cases he

/-- Every rejection of `check_api_key` carries status 401 and the
`WWW-Authenticate: Bearer` challenge header. -/
theorem check_api_key_error_status (serverKey : Option String)
    (creds : HTTPAuthorizationCredentials) (e : HTTPExceptionData)
    (he : check_api_key serverKey creds = Except.error e) :
    e.status = 401 ∧ e.headers = [("WWW-Authenticate", "Bearer")] := by
  unfold check_api_key at he
  split at he
  · cases he
    exact ⟨rfl, rfl⟩
  · cases he

/-- The handler body only ever ends in 200, 500 or 503. -/
theorem create_status_mem (sid : String) (sc : Int) (req : ChatCompletionRequest)
    (backend : BackendOutcome) :
    (create_chat_completion sid sc req backend).1.statusCode ∈
      ([200, 500, 503] : List Nat) := by
  cases hr : requestsPost backend with
  | error e => simp [create_chat_completion, hr, Outcome.statusCode]
  | ok j =>
    cases hm : pyDictGet j "message" (Json.obj []) with
    | error m => simp [create_chat_completion, hr, hm, Outcome.statusCode]
    | ok mv =>
      cases hc : pyDictGet mv "content" (Json.str "") with
      | error m => simp [create_chat_completion, hr, hm, hc, Outcome.statusCode]
      | ok cj =>
        cases hmo : pyDictGet j "model" (Json.str req.model) with
        | error m => simp [create_chat_completion, hr, hm, hc, hmo, Outcome.statusCode]
        | ok mj =>
          cases hcs : pyStrField cj with
          | error m =>
            simp [create_chat_completion, hr, hm, hc, hmo, hcs, Outcome.statusCode]
          | ok cs =>
            cases hms : pyStrField mj with
            | error m =>
              simp [create_chat_completion, hr, hm, hc, hmo, hcs, hms,
                Outcome.statusCode]
            | ok ms =>
              simp [create_chat_completion, hr, hm, hc, hmo, hcs, hms,
                Outcome.statusCode]

/-! Claim theorems. -/

/-- Claim C1: the claim says `id` and `created` are freshly generated for
every response; in the code they are pydantic class-level defaults computed
once at import, so every successful response carries exactly the
process-startup id and timestamp — any two successful responses from one
process therefore share both values, refuting per-response freshness. -/
theorem claim1_id_created_fixed_at_startup
    (serverKey : Option String) (sid : String) (sc : Int) (hdr : Option String)
    (body : Json) (backend : BackendOutcome) (r : ChatCompletionResponse)
    (h : (pipeline serverKey sid sc hdr body backend).1 = Outcome.ok r) :
    r.id = sid ∧ r.created = sc := by
  unfold pipeline create_chat_completion at h
  repeat' split at h
  all_goals first
    | (cases h; exact ⟨rfl, rfl⟩)
    | simp_all

/-- The successful response produced by the sample run, spelled out. -/
def sampleResponse : ChatCompletionResponse :=
  ⟨"chatcmpl-fixed", "chat.completion", 111, "llama3",
    [⟨0, ⟨"assistant", "hello!"⟩, "stop"⟩]⟩

/-- Claim C1 witness: a concrete successful run whose response carries the
startup-computed id `"chatcmpl-fixed"` and timestamp `111`. -/
theorem claim1_witness :
    sampleResponse.id = "chatcmpl-fixed" ∧ sampleResponse.created = 111 :=
  claim1_id_created_fixed_at_startup (some "secret") "chatcmpl-fixed" 111
    (some "Bearer secret") goodBody goodBackend sampleResponse rfl

/-- Claim C2 counterexample: a request with no Authorization header at all
(a missing bearer token) is rejected by the `HTTPBearer` security dependency
with HTTP 403 `"Not authenticated"` and no `WWW-Authenticate` header, not
with the claimed 401 challenge. The body is still never forwarded. -/
theorem claim2_counterexample :
    pipeline (some "secret") "chatcmpl-0" 7 none goodBody goodBackend
      = (Outcome.httpError ⟨403, "Not authenticated", []⟩, []) ∧ (403 : Nat) ≠ 401 :=
  ⟨rfl, by decide⟩

/-- Claim C2 amended: a request whose credential never reaches the handler:
if the `HTTPBearer` dependency rejects (missing header, empty scheme or
token, or non-bearer scheme) the result is a 403 with no outbound call;
if a bearer credential is presented but the scheme is not exactly `"Bearer"`
or the token does not match, the result is a 401 carrying the
`WWW-Authenticate: Bearer` challenge, again with no outbound call. -/
theorem claim2_amended (serverKey : Option String) (sid : String) (sc : Int)
    (hdr : Option String) (body : Json) (backend : BackendOutcome) :
    (∀ e, httpBearerCall hdr = Except.error e →
      pipeline serverKey sid sc hdr body backend = (Outcome.httpError e, []) ∧
        e.status = 403) ∧
    (∀ c, httpBearerCall hdr = Except.ok c →
      ¬(c.scheme = "Bearer" ∧ keyMatches c.credentials serverKey = true) →
      pipeline serverKey sid sc hdr body backend =
        (Outcome.httpError ⟨401, "Invalid or missing API key",
          [("WWW-Authenticate", "Bearer")]⟩, [])) := by
  constructor
  · intro e he
    constructor
    · simp only [pipeline, he]
    · simp only [httpBearerCall] at he
      split at he
      · cases he
        rfl
      · split at he
        · cases he
          rfl
        · cases he
  · intro c hc hbad
    have hcond : c.scheme ≠ "Bearer" ∨ keyMatches c.credentials serverKey = false := by
      by_cases hA : c.scheme = "Bearer"
      · cases hB : keyMatches c.credentials serverKey
        · exact Or.inr rfl
        · exact absurd ⟨hA, hB⟩ hbad
      · exact Or.inl hA
    simp only [pipeline, hc, check_api_key_fail serverKey c hcond]

/-- Claim C2 witness: a presented bearer token that does not match the key
yields the 401 challenge and no outbound call. -/
theorem claim2_witness :
    pipeline (some "secret") "chatcmpl-0" 7 (some "Bearer wrong") goodBody goodBackend
      = (Outcome.httpError ⟨401, "Invalid or missing API key",
          [("WWW-Authenticate", "Bearer")]⟩, []) :=
  (claim2_amended (some "secret") "chatcmpl-0" 7 (some "Bearer wrong")
      goodBody goodBackend).2 ⟨"Bearer", "wrong"⟩ rfl (by decide)

/-- Claim C3: for a valid authenticated request whose backend call succeeds
with a well-formed native body (an object whose `message` field is an object
with a string `content`, and whose `model` field, if present, is a string),
the response has object `"chat.completion"` and exactly one choice: index 0,
finish reason `"stop"`, role `"assistant"`, content equal to the backend's
`message.content`. -/
theorem claim3_success_shape
    (serverKey : Option String) (sid : String) (sc : Int) (hdr : Option String)
    (body : Json) (backend : BackendOutcome)
    (creds : HTTPAuthorizationCredentials) (tok : String)
    (req : ChatCompletionRequest) (fields mfields : List (String × Json))
    (content : String) (modelOpt : Option String)
    (h1 : httpBearerCall hdr = Except.ok creds)
    (h2 : check_api_key serverKey creds = Except.ok tok)
    (h3 : validateChatCompletionRequest body = some req)
    (h4 : requestsPost backend = Except.ok (Json.obj fields))
    (h5 : jlookup fields "message" = some (Json.obj mfields))
    (h6 : jlookup mfields "content" = some (Json.str content))
    (h7 : jlookup fields "model" = Option.map Json.str modelOpt) :
    ∃ resp, (pipeline serverKey sid sc hdr body backend).1 = Outcome.ok resp ∧
      resp.object = "chat.completion" ∧
      resp.choices = [⟨0, ⟨"assistant", content⟩, "stop"⟩] := by
  have hm : (jlookup fields "message").getD (Json.obj []) = Json.obj mfields := by
    rw [h5]; rfl
  have hc : jlookup mfields "content" = Option.map Json.str (some content) := h6
  have hstep := handler_success sid sc req backend fields mfields
    (some content) modelOpt h4 hm hc h7
  refine ⟨⟨sid, "chat.completion", sc, modelOpt.getD req.model,
    [⟨0, ⟨"assistant", content⟩, "stop"⟩]⟩, ?_, rfl, rfl⟩
  rw [pipeline_eq_handler serverKey sid sc hdr body backend creds tok req h1 h2 h3,
    hstep]
  rfl

/-- Claim C3 witness: the sample request against the healthy backend yields
the assistant content `"hello!"` in a single-choice response. -/
theorem claim3_witness :
    ∃ resp,
      (pipeline (some "secret") "chatcmpl-0" 7 (some "Bearer secret") goodBody
          goodBackend).1 = Outcome.ok resp ∧
      resp.object = "chat.completion" ∧
      resp.choices = [⟨0, ⟨"assistant", "hello!"⟩, "stop"⟩] :=
  claim3_success_shape (some "secret") "chatcmpl-0" 7 (some "Bearer secret")
    goodBody goodBackend ⟨"Bearer", "secret"⟩ "secret" ⟨"llama3", [⟨Role.user, "hi"⟩]⟩
    [("model", Json.str "llama3"), ("message", Json.obj [("content", Json.str "hello!")])]
    [("content", Json.str "hello!")] "hello!" (some "llama3")
    rfl rfl rfl rfl rfl rfl rfl

/-- Claim C4 counterexample: a backend reply of HTTP 200 whose body decodes
as the JSON string `"hello"` cannot be interpreted as the expected shape, yet
the handler does not answer 503: `ollama_data.get` raises `AttributeError`,
which the `except requests.exceptions.RequestException` clause does not
catch, so the request fails as an unhandled 500. -/
theorem claim4_counterexample :
    (pipeline (some "secret") "chatcmpl-0" 7 (some "Bearer secret") goodBody
        (BackendOutcome.response 200 "OK" (Except.ok (Json.str "hello")))).1
      = Outcome.unhandled "AttributeError: str object has no attribute get" ∧
    (pipeline (some "secret") "chatcmpl-0" 7 (some "Bearer secret") goodBody
        (BackendOutcome.response 200 "OK" (Except.ok (Json.str "hello")))).1.statusCode
      = 500 ∧ (500 : Nat) ≠ 503 :=
  ⟨rfl, rfl, by decide⟩

/-- Claim C4 amended: for an authenticated validated request, every failure
that `requests` raises — connection failure, timeout, a 4xx/5xx backend
status, or a body that is not decodable as JSON — is answered with HTTP 503
whose detail text is `"Error connecting to Ollama: "` followed by the
underlying cause; a body that decodes as JSON but is not an object of the
expected shape instead escapes as an unhandled error (HTTP 500). -/
theorem claim4_amended (serverKey : Option String) (sid : String) (sc : Int)
    (hdr : Option String) (body : Json) (backend : BackendOutcome)
    (creds : HTTPAuthorizationCredentials) (tok : String)
    (req : ChatCompletionRequest) (e : ReqError)
    (h1 : httpBearerCall hdr = Except.ok creds)
    (h2 : check_api_key serverKey creds = Except.ok tok)
    (h3 : validateChatCompletionRequest body = some req)
    (he : requestsPost backend = Except.error e) :
    pipeline serverKey sid sc hdr body backend =
      (Outcome.httpError ⟨503, "Error connecting to Ollama: " ++ e.text, []⟩,
       [⟨req.model, req.messages.map ChatMessage.dict, false⟩]) := by
  rw [pipeline_eq_handler serverKey sid sc hdr body backend creds tok req h1 h2 h3]
  unfold create_chat_completion
  rw [he]

/-- Claim C4 witness: a refused connection on the sample request yields the
503 with the cause text in the detail. -/
theorem claim4_witness :
    pipeline (some "secret") "chatcmpl-0" 7 (some "Bearer secret") goodBody
        (BackendOutcome.connectionError "Connection refused")
      = (Outcome.httpError
          ⟨503, "Error connecting to Ollama: Connection refused", []⟩,
         [⟨"llama3", [⟨"user", "hi"⟩], false⟩]) :=
  claim4_amended (some "secret") "chatcmpl-0" 7 (some "Bearer secret") goodBody
    (BackendOutcome.connectionError "Connection refused") ⟨"Bearer", "secret"⟩
    "secret" ⟨"llama3", [⟨Role.user, "hi"⟩]⟩ (ReqError.connectionError "Connection refused")
    rfl rfl rfl rfl

/-- Claim C5 counterexample: a request carrying the unsupported role `"tool"`
together with a wrong bearer token is answered 401, not the claimed 422 — the
auth dependency runs before body validation. The backend is still never
contacted. -/
theorem claim5_counterexample :
    (pipeline (some "secret") "chatcmpl-0" 7 (some "Bearer wrong") badRoleBody
        goodBackend).1.statusCode = 401 ∧
    (401 : Nat) ≠ 422 ∧
    (pipeline (some "secret") "chatcmpl-0" 7 (some "Bearer wrong") badRoleBody
        goodBackend).2 = [] :=
  ⟨rfl, by decide, rfl⟩

/-- Claim C5 amended: for a request that passes authentication, a body
failing validation — in particular one containing a message whose role is
outside the permitted set — is answered 422, and the backend is never
contacted; when authentication also fails the 401/403 answer wins instead
(and the backend is still never contacted). -/
theorem claim5_amended (serverKey : Option String) (sid : String) (sc : Int)
    (hdr : Option String) (body : Json) (backend : BackendOutcome)
    (creds : HTTPAuthorizationCredentials) (tok : String)
    (h1 : httpBearerCall hdr = Except.ok creds)
    (h2 : check_api_key serverKey creds = Except.ok tok) :
    (validateChatCompletionRequest body = none →
      pipeline serverKey sid sc hdr body backend = (Outcome.validationError, [])) ∧
    (∀ fields msgs mf r, body = Json.obj fields →
      jlookup fields "messages" = some (Json.arr msgs) →
      Json.obj mf ∈ msgs →
      jlookup mf "role" = some (Json.str r) →
      Role.ofStr r = none →
      validateChatCompletionRequest body = none) := by
  constructor
  · intro hv
    simp only [pipeline, h1, h2, hv]
  · intro fields msgs mf r hbody hmsgs hmem hrole hbad
    have hnone := validateMessages_none msgs (Json.obj mf) hmem
      (validateChatMessage_badRole mf r hrole hbad)
    subst hbody
    simp only [validateChatCompletionRequest]
    rw [hmsgs]
    cases hmodel : jlookup fields "model" with
    | none => rfl
    | some v => cases v <;> simp [hnone]

/-- Claim C5 witness: the bad-role request with the correct token is rejected
as a 422 validation error with no outbound call. -/
theorem claim5_witness :
    pipeline (some "secret") "chatcmpl-0" 7 (some "Bearer secret") badRoleBody
        goodBackend = (Outcome.validationError, []) := by
  have h := claim5_amended (some "secret") "chatcmpl-0" 7 (some "Bearer secret")
    badRoleBody goodBackend ⟨"Bearer", "secret"⟩ "secret" rfl rfl
  exact h.1 (h.2
    [("model", Json.str "llama3"),
     ("messages", Json.arr [Json.obj [("role", Json.str "tool"),
                                      ("content", Json.str "hi")]])]
    [Json.obj [("role", Json.str "tool"), ("content", Json.str "hi")]]
    [("role", Json.str "tool"), ("content", Json.str "hi")] "tool"
    rfl rfl (List.mem_singleton.mpr rfl) rfl rfl)

/-- Claim C6: for every authenticated, validated request the outbound native
request copies the model verbatim, maps each message to its role/content
dictionary preserving order, and sets the streaming flag to false. -/
theorem claim6_payload (serverKey : Option String) (sid : String) (sc : Int)
    (hdr : Option String) (body : Json) (backend : BackendOutcome)
    (creds : HTTPAuthorizationCredentials) (tok : String)
    (req : ChatCompletionRequest)
    (h1 : httpBearerCall hdr = Except.ok creds)
    (h2 : check_api_key serverKey creds = Except.ok tok)
    (h3 : validateChatCompletionRequest body = some req) :
    (pipeline serverKey sid sc hdr body backend).2 =
      [{ model := req.model, messages := req.messages.map ChatMessage.dict,
         stream := false }] := by
  rw [pipeline_eq_handler serverKey sid sc hdr body backend creds tok req h1 h2 h3]
  rfl

/-- Claim C6 witness: the sample request is forwarded as model `"llama3"`,
one user message, stream `false`. -/
theorem claim6_witness :
    (pipeline (some "secret") "chatcmpl-0" 7 (some "Bearer secret") goodBody
        goodBackend).2 =
      [{ model := "llama3", messages := [{ role := "user", content := "hi" }],
         stream := false }] :=
  claim6_payload (some "secret") "chatcmpl-0" 7 (some "Bearer secret") goodBody
    goodBackend ⟨"Bearer", "secret"⟩ "secret" ⟨"llama3", [⟨Role.user, "hi"⟩]⟩
    rfl rfl rfl

/-- Claim C7: on backend success the assistant content equals the backend's
`message.content` when present and `""` when absent, and the returned model
equals the backend's `model` field when present and the requested model when
the backend omits it. -/
theorem claim7_defaults (serverKey : Option String) (sid : String) (sc : Int)
    (hdr : Option String) (body : Json) (backend : BackendOutcome)
    (creds : HTTPAuthorizationCredentials) (tok : String)
    (req : ChatCompletionRequest) (fields mfields : List (String × Json))
    (contentOpt modelOpt : Option String)
    (h1 : httpBearerCall hdr = Except.ok creds)
    (h2 : check_api_key serverKey creds = Except.ok tok)
    (h3 : validateChatCompletionRequest body = some req)
    (h4 : requestsPost backend = Except.ok (Json.obj fields))
    (hm : (jlookup fields "message").getD (Json.obj []) = Json.obj mfields)
    (hc : jlookup mfields "content" = Option.map Json.str contentOpt)
    (hmo : jlookup fields "model" = Option.map Json.str modelOpt) :
    (pipeline serverKey sid sc hdr body backend).1 =
      Outcome.ok ⟨sid, "chat.completion", sc, modelOpt.getD req.model,
        [⟨0, ⟨"assistant", contentOpt.getD ""⟩, "stop"⟩]⟩ := by
  rw [pipeline_eq_handler serverKey sid sc hdr body backend creds tok req h1 h2 h3,
    handler_success sid sc req backend fields mfields contentOpt modelOpt h4 hm hc hmo]

/-- Claim C7 witness: a backend reply whose body is the empty JSON object
yields content `""` and the originally requested model `"llama3"`. -/
theorem claim7_witness :
    (pipeline (some "secret") "chatcmpl-0" 7 (some "Bearer secret") goodBody
        (BackendOutcome.response 200 "OK" (Except.ok (Json.obj [])))).1 =
      Outcome.ok ⟨"chatcmpl-0", "chat.completion", 7, "llama3",
        [⟨0, ⟨"assistant", ""⟩, "stop"⟩]⟩ :=
  claim7_defaults (some "secret") "chatcmpl-0" 7 (some "Bearer secret") goodBody
    (BackendOutcome.response 200 "OK" (Except.ok (Json.obj []))) ⟨"Bearer", "secret"⟩
    "secret" ⟨"llama3", [⟨Role.user, "hi"⟩]⟩ [] [] none none rfl rfl rfl rfl rfl rfl rfl

/-- Claim C8 counterexample: a request with no Authorization header is
answered with status 403, which is not an element of the claimed error-status
enumeration {401, 422, 503} (and is not a success either). -/
theorem claim8_counterexample :
    (pipeline (some "secret") "chatcmpl-0" 7 none goodBody goodBackend).1.statusCode
      = 403 ∧
    (403 : Nat) ∉ ([401, 422, 503] : List Nat) ∧
    ∀ r, (pipeline (some "secret") "chatcmpl-0" 7 none goodBody goodBackend).1 ≠
      Outcome.ok r := by
  refine ⟨rfl, by decide, ?_⟩
  intro r h
  rw [show (pipeline (some "secret") "chatcmpl-0" 7 none goodBody goodBackend).1
      = Outcome.httpError ⟨403, "Not authenticated", []⟩ from rfl] at h
  cases h

/-- Claim C8 amended: the endpoint returns either a complete, schema-valid
response (one choice, index 0, role assistant, finish reason stop) or an
error status among {401, 403, 422, 500, 503}; in particular, when the
outbound call fails with a connection error or a timeout after the handler
was reached, the status is 503 — never a partially-filled response. -/
theorem claim8_amended (serverKey : Option String) (sid : String) (sc : Int)
    (hdr : Option String) (body : Json) (backend : BackendOutcome) :
    (∀ r, (pipeline serverKey sid sc hdr body backend).1 = Outcome.ok r →
      schemaValid r = true) ∧
    (pipeline serverKey sid sc hdr body backend).1.statusCode ∈
      ([200, 401, 403, 422, 500, 503] : List Nat) ∧
    (∀ m, backend = BackendOutcome.connectionError m ∨
        backend = BackendOutcome.timeout m →
      (pipeline serverKey sid sc hdr body backend).2 ≠ [] →
      (pipeline serverKey sid sc hdr body backend).1.statusCode = 503) := by
  refine ⟨?_, ?_, ?_⟩
  · intro r h
    unfold pipeline create_chat_completion at h
    repeat' split at h
    all_goals first
      | (cases h; rfl)
      | simp_all
  · cases hb : httpBearerCall hdr with
    | error e =>
      have h403 := httpBearerCall_error_status hdr e hb
      simp [pipeline, hb, Outcome.statusCode, h403]
    | ok creds =>
      cases hk : check_api_key serverKey creds with
      | error e =>
        have h401 := (check_api_key_error_status serverKey creds e hk).1
        simp [pipeline, hb, hk, Outcome.statusCode, h401]
      | ok tok =>
        cases hv : validateChatCompletionRequest body with
        | none => simp [pipeline, hb, hk, hv, Outcome.statusCode]
        | some req =>
          rw [pipeline_eq_handler serverKey sid sc hdr body backend creds tok req
            hb hk hv]
          have hmem := create_status_mem sid sc req backend
          simp only [List.mem_cons, List.not_mem_nil, or_false] at hmem ⊢
          rcases hmem with h | h | h <;> simp [h]
  · intro m hbe hne
    cases hb : httpBearerCall hdr with
    | error e =>
      exact absurd (show (pipeline serverKey sid sc hdr body backend).2 = [] by
        simp [pipeline, hb]) hne
    | ok creds =>
      cases hk : check_api_key serverKey creds with
      | error e =>
        exact absurd (show (pipeline serverKey sid sc hdr body backend).2 = [] by
          simp [pipeline, hb, hk]) hne
      | ok tok =>
        cases hv : validateChatCompletionRequest body with
        | none =>
          exact absurd (show (pipeline serverKey sid sc hdr body backend).2 = [] by
            simp [pipeline, hb, hk, hv]) hne
        | some req =>
          rw [pipeline_eq_handler serverKey sid sc hdr body backend creds tok req
            hb hk hv]
          rcases hbe with rfl | rfl <;> rfl

/-- Claim C8 witness: the amended statement applied to a request whose
backend connection is refused: the outbound call was issued, and the status
observed by the client is 503. -/
theorem claim8_witness :
    (pipeline (some "secret") "chatcmpl-0" 7 (some "Bearer secret") goodBody
        (BackendOutcome.connectionError "refused")).1.statusCode = 503 ∧
    (pipeline (some "secret") "chatcmpl-0" 7 none goodBody goodBackend).1.statusCode ∈
      ([200, 401, 403, 422, 500, 503] : List Nat) :=
  ⟨(claim8_amended (some "secret") "chatcmpl-0" 7 (some "Bearer secret") goodBody
      (BackendOutcome.connectionError "refused")).2.2 "refused" (Or.inl rfl)
      (by decide),
   (claim8_amended (some "secret") "chatcmpl-0" 7 none goodBody goodBackend).2.1⟩

/-- Claim C9: when the API key environment variable is unset at startup, no
credential is ever accepted: `check_api_key` rejects every presented
credential with the 401 challenge, and every request whose bearer credential
reaches it is answered 401 with no outbound call. -/
theorem claim9_unset_key_rejects_all :
    (∀ creds, check_api_key none creds =
      Except.error ⟨401, "Invalid or missing API key",
        [("WWW-Authenticate", "Bearer")]⟩) ∧
    (∀ (sid : String) (sc : Int) (hdr : Option String) (body : Json)
        (backend : BackendOutcome) (creds : HTTPAuthorizationCredentials),
      httpBearerCall hdr = Except.ok creds →
      pipeline none sid sc hdr body backend =
        (Outcome.httpError ⟨401, "Invalid or missing API key",
          [("WWW-Authenticate", "Bearer")]⟩, [])) := by
  constructor
  · intro creds
    exact check_api_key_fail none creds (Or.inr rfl)
  · intro sid sc hdr body backend creds h
    simp only [pipeline, h, check_api_key_fail none creds (Or.inr rfl)]

/-- Claim C9 witness: with no configured key, a concrete bearer credential is
rejected 401 and the sample request issues no outbound call. -/
theorem claim9_witness :
    check_api_key none ⟨"Bearer", "any-token"⟩ =
      Except.error ⟨401, "Invalid or missing API key",
        [("WWW-Authenticate", "Bearer")]⟩ ∧
    pipeline none "chatcmpl-0" 7 (some "Bearer any-token") goodBody goodBackend =
      (Outcome.httpError ⟨401, "Invalid or missing API key",
        [("WWW-Authenticate", "Bearer")]⟩, []) :=
  ⟨claim9_unset_key_rejects_all.1 ⟨"Bearer", "any-token"⟩,
   claim9_unset_key_rejects_all.2 "chatcmpl-0" 7 (some "Bearer any-token") goodBody
     goodBackend ⟨"Bearer", "any-token"⟩ rfl⟩

/-- Claim C10: a body whose `messages` field is the empty list passes
validation (no minimum length is enforced) and, when authenticated, is
forwarded to the backend with an empty messages array; the outcome is never
the 422 validation rejection. -/
theorem claim10_empty_messages (serverKey : Option String) (sid : String)
    (sc : Int) (hdr : Option String) (backend : BackendOutcome)
    (creds : HTTPAuthorizationCredentials) (tok : String) (m : String)
    (h1 : httpBearerCall hdr = Except.ok creds)
    (h2 : check_api_key serverKey creds = Except.ok tok) :
    validateChatCompletionRequest
        (Json.obj [("model", Json.str m), ("messages", Json.arr [])]) =
      some ⟨m, []⟩ ∧
    (pipeline serverKey sid sc hdr
        (Json.obj [("model", Json.str m), ("messages", Json.arr [])]) backend).2 =
      [{ model := m, messages := [], stream := false }] ∧
    (pipeline serverKey sid sc hdr
        (Json.obj [("model", Json.str m), ("messages", Json.arr [])]) backend).1 ≠
      Outcome.validationError := by
  have hv : validateChatCompletionRequest
      (Json.obj [("model", Json.str m), ("messages", Json.arr [])]) =
      some ⟨m, []⟩ := rfl
  have hp := pipeline_eq_handler serverKey sid sc hdr
    (Json.obj [("model", Json.str m), ("messages", Json.arr [])]) backend creds tok
    ⟨m, []⟩ h1 h2 hv
  refine ⟨hv, ?_, ?_⟩
  · rw [hp]
    rfl
  · intro hcontra
    rw [hp] at hcontra
    unfold create_chat_completion at hcontra
    repeat' split at hcontra
    all_goals simp_all

/-- Claim C10 witness: the empty-messages request passes validation and is
forwarded with an empty messages array. -/
theorem claim10_witness :
    validateChatCompletionRequest
        (Json.obj [("model", Json.str "llama3"), ("messages", Json.arr [])]) =
      some ⟨"llama3", []⟩ ∧
    (pipeline (some "secret") "chatcmpl-0" 7 (some "Bearer secret")
        (Json.obj [("model", Json.str "llama3"), ("messages", Json.arr [])])
        goodBackend).2 =
      [{ model := "llama3", messages := [], stream := false }] ∧
    (pipeline (some "secret") "chatcmpl-0" 7 (some "Bearer secret")
        (Json.obj [("model", Json.str "llama3"), ("messages", Json.arr [])])
        goodBackend).1 ≠
      Outcome.validationError :=
  claim10_empty_messages (some "secret") "chatcmpl-0" 7 (some "Bearer secret")
    goodBackend ⟨"Bearer", "secret"⟩ "secret" "llama3" rfl rfl

end Proxy
